import Mathlib

/-!
Shallow embedding of `src/doc/plot_linear_lifetime.py`.

The script's numbers are Python/NumPy floats; we embed them as exact
rationals (`ℚ`), the standard idealisation that keeps every definition
executable and every comparison decidable.
-/

namespace PlotLinearLifetime

/-- Constant `epochs_per_day = 16` (line 5 of the script). -/
def epochs_per_day : ℚ := 16

/-- Constant `epoch_increments = 80` (line 6 of the script). -/
def epoch_increments : ℚ := 80

/-- The linear model `cube_lifetime` (lines 9-13), default-argument
calibration points `(c1, e1) = (10, 0)` and `(c2, e2) = (80, 960)`:
slope `m = (e2 - e1) / (c2 - c1)`, intercept `b = e1 - m * c1`,
value `m * x + b`. -/
def cube_lifetime (x : ℚ) (e1 : ℚ := 0) (e2 : ℚ := 960)
    (c1 : ℚ := 10) (c2 : ℚ := 80) : ℚ :=
  let m := (e2 - e1) / (c2 - c1)
  let b := e1 - m * c1
  m * x + b

/-- Division-checked variant of `cube_lifetime`: Python scalar division
raises `ZeroDivisionError` when the divisor `c2 - c1` is zero, which we
model as `none`; otherwise the computation proceeds as in the source. -/
def cube_lifetimeChecked (x : ℚ) (e1 : ℚ := 0) (e2 : ℚ := 960)
    (c1 : ℚ := 10) (c2 : ℚ := 80) : Option ℚ :=
  if c2 - c1 = 0 then none
  else some (cube_lifetime x e1 e2 c1 c2)

/-- Embedding of `np.linspace start stop num`: `num` evenly spaced samples from
`start` to `stop` inclusive, step `(stop - start) / (num - 1)`. -/
def linspace (start stop : ℚ) (num : ℕ) : List ℚ :=
  (List.range num).map (fun i : ℕ => start + (i : ℚ) * ((stop - start) / ((num : ℚ) - 1)))

/-- Definition `x_values = np.linspace(10, 80, 500)` (line 16). -/
def x_values : List ℚ := linspace 10 80 500

/-- Definition `challenge_points = [10, 15, 20, 25, 30, 35, 40, 45, 50]` (line 17). -/
def challenge_points : List ℚ := [10, 15, 20, 25, 30, 35, 40, 45, 50]

/-- Definition `y_values = cube_lifetime(x_values)` (line 20): elementwise model. -/
def y_values : List ℚ := x_values.map (fun x => cube_lifetime x)

/-- Definition `y_values_points = cube_lifetime(challenge_points)` (line 21). -/
def y_values_points : List ℚ := challenge_points.map (fun x => cube_lifetime x)

/-- Python `int()` applied to a real value: truncation toward zero. -/
def pyInt (q : ℚ) : ℤ := if 0 ≤ q then ⌊q⌋ else ⌈q⌉

/-- The integer labels written next to the markers (line 31):
`int(y)` for each `y` in `y_values_points`. -/
def annotValues : List ℤ := y_values_points.map pyInt

/-- Python `max` over a list; the empty case never occurs in the script. -/
def pyMax : List ℚ → ℚ
  | [] => 0
  | x :: xs => xs.foldl max x

/-- Embedding of `np.arange start stop step` for positive `step`: the
`⌈(stop - start) / step⌉` values `start, start + step, ...`, all `< stop`. -/
def arange (start stop step : ℚ) : List ℚ :=
  (List.range (⌈(stop - start) / step⌉).toNat).map (fun i => start + i * step)

/-- Definition `y_ticks_epochs = np.arange(0, max(y_values) + epoch_increments,
epoch_increments)` (line 36). -/
def y_ticks_epochs : List ℚ := arange 0 (pyMax y_values + epoch_increments) epoch_increments

/-- Definition `y_ticks_days = y_ticks_epochs / epochs_per_day` (line 41). -/
def y_ticks_days : List ℚ := y_ticks_epochs.map (fun t => t / epochs_per_day)

/-- Embedding of `ax2.set_ylim(ax1.get_ylim()[0] / epochs_per_day, ax1.get_ylim()[1] /
epochs_per_day)` (line 46): the secondary-axis limits are the primary
displayed limits divided elementwise by the conversion ratio. -/
def ax2_ylim (ax1_ylim : ℚ × ℚ) : ℚ × ℚ :=
  (ax1_ylim.1 / epochs_per_day, ax1_ylim.2 / epochs_per_day)

/-- Fraction of the axis height at which value `v` is drawn on an axis
with limits `lim`. -/
def axisFrac (lim : ℚ × ℚ) (v : ℚ) : ℚ := (v - lim.1) / (lim.2 - lim.1)

/-- Definition `additional_x_ticks` (line 49): the fixed, explicitly enumerated
input-axis tick list. -/
def additional_x_ticks : List ℚ :=
  [10, 15, 20, 25, 30, 35, 40, 45, 50, 55, 60, 65, 70, 75, 80]

/-- Helper: a left fold of `max` either returns its seed or an element
of the list. -/
theorem foldl_max_mem (xs : List ℚ) (x : ℚ) :
    xs.foldl max x = x ∨ xs.foldl max x ∈ xs := by
  induction xs generalizing x with
  | nil => exact Or.inl rfl
  | cons a as ih =>
    rw [List.foldl_cons]
    rcases ih (max x a) with h | h
    · rcases max_choice x a with hx | hx
      · exact Or.inl (h.trans hx)
      · refine Or.inr ?_
        rw [h.trans hx]
        exact List.mem_cons_self a as
    · exact Or.inr (List.mem_cons_of_mem a h)

/-- Helper: a left fold of `max` bounds its seed and every element. -/
theorem le_foldl_max (xs : List ℚ) (x : ℚ) :
    x ≤ xs.foldl max x ∧ ∀ y ∈ xs, y ≤ xs.foldl max x := by
  induction xs generalizing x with
  | nil => exact ⟨le_refl x, by simp⟩
  | cons a as ih =>
    obtain ⟨h1, h2⟩ := ih (max x a)
    rw [List.foldl_cons]
    refine ⟨le_trans (le_max_left x a) h1, ?_⟩
    intro y hy
    rcases List.mem_cons.mp hy with rfl | hy
    · exact le_trans (le_max_right x y) h1
    · exact h2 y hy

/-- Helper: `pyMax` of a list possessing a greatest element is that
element. -/
theorem pyMax_eq {l : List ℚ} {m : ℚ} (hmem : m ∈ l)
    (hle : ∀ y ∈ l, y ≤ m) : pyMax l = m := by
  cases l with
  | nil => cases hmem
  | cons x xs =>
    show xs.foldl max x = m
    obtain ⟨h1, h2⟩ := le_foldl_max xs x
    apply le_antisymm
    · rcases foldl_max_mem xs x with h | h
      · rw [h]
        exact hle x (List.mem_cons_self x xs)
      · exact hle _ (List.mem_cons_of_mem x h)
    · rcases List.mem_cons.mp hmem with rfl | hm
      · exact h1
      · exact h2 m hm

/-- Helper: the model is monotone with the default calibration. -/
theorem cube_lifetime_le_of_le {x y : ℚ} (h : x ≤ y) :
    cube_lifetime x ≤ cube_lifetime y := by
  simp only [cube_lifetime]
  norm_num
  linarith

/-- Helper: `960` is attained on the dense curve (at the sample `i = 499`,
i.e. `x = 80`). -/
theorem y_values_mem_960 : (960 : ℚ) ∈ y_values := by
  have h80 : (80 : ℚ) ∈ x_values := by
    simp only [x_values, linspace]
    refine List.mem_map.mpr ⟨499, List.mem_range.mpr (by norm_num), ?_⟩
    push_cast
    norm_num
  exact List.mem_map.mpr ⟨80, h80, by norm_num [cube_lifetime]⟩

/-- Helper: every dense-curve output is at most `960`. -/
theorem y_values_le_960 : ∀ y ∈ y_values, y ≤ (960 : ℚ) := by
  intro y hy
  simp only [y_values] at hy
  obtain ⟨x, hx, rfl⟩ := List.mem_map.mp hy
  simp only [x_values, linspace] at hx
  obtain ⟨i, hi, rfl⟩ := List.mem_map.mp hx
  rw [List.mem_range] at hi
  have hi' : (i : ℚ) ≤ 499 := by exact_mod_cast Nat.lt_succ_iff.mp hi
  simp only [cube_lifetime]
  push_cast
  norm_num
  linarith

/-- Helper: the Python `max` over the dense curve is exactly `960`. -/
theorem pyMax_y_values : pyMax y_values = 960 :=
  pyMax_eq y_values_mem_960 y_values_le_960

/-- Helper: the primary tick list evaluates to the arithmetic sequence
`0, 80, ..., 960`. -/
theorem y_ticks_epochs_eq :
    y_ticks_epochs =
      [0, 80, 160, 240, 320, 400, 480, 560, 640, 720, 800, 880, 960] := by
  rw [y_ticks_epochs, pyMax_y_values, epoch_increments, arange]
  rw [show ((960 : ℚ) + 80 - 0) / 80 = 13 by norm_num]
  rw [show (13 : ℚ) = ((13 : ℤ) : ℚ) by norm_num, Int.ceil_intCast]
  rw [show ((13 : ℤ)).toNat = 13 from rfl]
  simp [List.range_succ]
  norm_num

/-- C1: for every rational input `x`, the model with its fixed default
calibration points `(10, 0)` and `(80, 960)` returns
`slope * x + intercept` where `slope = 960 / 70` and
`intercept = 0 - (960 / 70) * 10` (≈ 13.714 and ≈ -137.14). -/
theorem c1_model_equals_line (x : ℚ) :
    cube_lifetime x = (960 / 70) * x + (0 - (960 / 70) * 10) := by
  simp only [cube_lifetime]
  norm_num

/-- C2: the model evaluated at each of its two default calibration inputs
returns exactly the corresponding calibration output. -/
theorem c2_calibration_outputs :
    cube_lifetime 10 = 0 ∧ cube_lifetime 80 = 960 :=
  ⟨by norm_num [cube_lifetime], by norm_num [cube_lifetime]⟩

/-- C3 is false as stated: at the challenge input `15` the model value is
`480 / 7` (≈ 68.571), whose nearest integer is `69`, yet the label the
script places is `int(480 / 7) = 68` (Python truncation toward zero). -/
theorem c3_counterexample :
    (15 : ℚ) ∈ challenge_points ∧
    pyInt (cube_lifetime 15) = 68 ∧
    round (cube_lifetime 15) = 69 ∧
    pyInt (cube_lifetime 15) ≠ round (cube_lifetime 15) := by
  have hv : cube_lifetime 15 = 480 / 7 := by norm_num [cube_lifetime]
  have h1 : pyInt (cube_lifetime 15) = 68 := by
    rw [hv, pyInt, if_pos (by norm_num : (0 : ℚ) ≤ 480 / 7), Int.floor_eq_iff]
    norm_num
  have h2 : round (cube_lifetime 15) = 69 := by
    rw [hv, round_eq, Int.floor_eq_iff]
    norm_num
  refine ⟨by norm_num [challenge_points], h1, h2, ?_⟩
  rw [h1, h2]
  decide

/-- C3 (amended): for the nine discrete challenge inputs, the label placed
at each point is the model value truncated toward zero (Python `int`),
giving the labels `[0, 68, 137, 205, 274, 342, 411, 480, 548]`, and the
sequence of model outputs over these inputs is strictly increasing. -/
theorem c3_labels_truncated_and_increasing :
    annotValues = [0, 68, 137, 205, 274, 342, 411, 480, 548] ∧
    List.Chain' (· < ·) y_values_points := by
  constructor
  · simp only [annotValues, y_values_points, challenge_points, List.map_cons,
      List.map_nil]
    norm_num [cube_lifetime, pyInt, Int.floor_eq_iff]
  · simp only [y_values_points, challenge_points, List.map_cons, List.map_nil,
      List.chain'_cons, List.chain'_singleton]
    norm_num [cube_lifetime]

/-- C4: the secondary-unit (days) value attached to the model output at
any `x` is `model(x)` divided by the fixed ratio `16`; the secondary tick
list is exactly the primary tick list relabelled by that division (the
underlying tick data is only rescaled, with `960` becoming `60`). -/
theorem c4_days_value_is_div_16 :
    (∀ x : ℚ, cube_lifetime x / epochs_per_day = cube_lifetime x / 16) ∧
    y_ticks_days = y_ticks_epochs.map (fun t => t / 16) ∧
    y_ticks_days.getLast? = some 60 := by
  refine ⟨fun x => by rw [epochs_per_day], ?_, ?_⟩
  · simp only [y_ticks_days, epochs_per_day]
  · rw [y_ticks_days, y_ticks_epochs_eq]
    norm_num [epochs_per_day]

/-- C5: the primary-axis tick sequence starts at `0`, each successive tick
adds the fixed increment `80`, and its last element (`960`) is at least
every output value on the dense curve. -/
theorem c5_primary_ticks_arith_and_cover :
    y_ticks_epochs.head? = some 0 ∧
    List.Chain' (fun a b => b = a + epoch_increments) y_ticks_epochs ∧
    ∃ t, y_ticks_epochs.getLast? = some t ∧ ∀ y ∈ y_values, y ≤ t := by
  refine ⟨?_, ?_, 960, ?_, y_values_le_960⟩
  · rw [y_ticks_epochs_eq]
    rfl
  · rw [y_ticks_epochs_eq]
    simp only [List.chain'_cons, List.chain'_singleton, epoch_increments]
    norm_num
  · rw [y_ticks_epochs_eq]
    rfl

/-- C6: the secondary-axis limits are the primary displayed limits divided
elementwise by `16` (derived by dividing the limits directly), and any
primary value `t` sits at the same axis fraction as `t / 16` does on the
secondary axis, so corresponding ticks align. -/
theorem c6_secondary_range_divides_limits (lim : ℚ × ℚ)
    (h : lim.1 ≠ lim.2) (t : ℚ) :
    ax2_ylim lim = (lim.1 / 16, lim.2 / 16) ∧
    axisFrac (ax2_ylim lim) (t / 16) = axisFrac lim t := by
  have hne : lim.2 - lim.1 ≠ 0 := sub_ne_zero.mpr (Ne.symm h)
  constructor
  · simp [ax2_ylim, epochs_per_day]
  · simp only [axisFrac, ax2_ylim, epochs_per_day]
    field_simp

/-- C6 witness: at the concrete primary limits `(-48, 1008)` and primary
tick `t = 960` (which maps to secondary tick `60`). -/
theorem c6_witness :
    ax2_ylim (-48, 1008) = ((-48 : ℚ) / 16, (1008 : ℚ) / 16) ∧
    axisFrac (ax2_ylim (-48, 1008)) ((960 : ℚ) / 16) =
      axisFrac (-48, 1008) 960 :=
  c6_secondary_range_divides_limits (-48, 1008) (by norm_num) 960

/-- C7: the model with its default calibration is strictly monotonically
increasing. -/
theorem c7_strictly_increasing (x1 x2 : ℚ) (h : x1 < x2) :
    cube_lifetime x1 < cube_lifetime x2 := by
  simp only [cube_lifetime]
  norm_num
  linarith

/-- C7 witness: at the concrete pair `10 < 80`. -/
theorem c7_witness : cube_lifetime 10 < cube_lifetime 80 :=
  c7_strictly_increasing 10 80 (by norm_num)

/-- C8: every one of the nine discrete challenge inputs appears in the
fixed, explicitly enumerated input-axis tick list. -/
theorem c8_challenge_inputs_ticked (c : ℚ) (hc : c ∈ challenge_points) :
    c ∈ additional_x_ticks := by
  fin_cases hc <;> norm_num [additional_x_ticks]

/-- C8 witness: the concrete challenge input `15`. -/
theorem c8_witness : (15 : ℚ) ∈ additional_x_ticks :=
  c8_challenge_inputs_ticked 15 (by norm_num [challenge_points])

/-- C9: with the fixed default calibration points the slope divisor
`c2 - c1 = 80 - 10` is nonzero, so the division-by-zero branch is
unreachable and the checked model agrees with the pure total model at
every input. -/
theorem c9_no_division_error (x : ℚ) :
    (80 : ℚ) - 10 ≠ 0 ∧ cube_lifetimeChecked x = some (cube_lifetime x) := by
  refine ⟨by norm_num, ?_⟩
  simp only [cube_lifetimeChecked]
  rw [if_neg (by norm_num : ¬((80 : ℚ) - 10 = 0))]

/-- C10: for every calibration `(e1, e2, c1, c2)` with `c1 ≠ c2`, both
calibration points are fixed points of the constructed line. -/
theorem c10_calibration_fixed_points_general (e1 e2 c1 c2 : ℚ)
    (h : c1 ≠ c2) :
    cube_lifetime c1 e1 e2 c1 c2 = e1 ∧ cube_lifetime c2 e1 e2 c1 c2 = e2 := by
  have hne : c2 - c1 ≠ 0 := sub_ne_zero.mpr (Ne.symm h)
  constructor
  · simp only [cube_lifetime]
    ring
  · simp only [cube_lifetime]
    field_simp
    ring

/-- C10 witness: the default calibration `(0, 960, 10, 80)`. -/
theorem c10_witness :
    cube_lifetime 10 0 960 10 80 = 0 ∧ cube_lifetime 80 0 960 10 80 = 960 :=
  c10_calibration_fixed_points_general 0 960 10 80 (by norm_num)

end PlotLinearLifetime
